import Mathlib

/-!
Shallow embedding of the goof3 compiler's semantic-analysis and
code-generation passes (src/semantics/check.js, src/semantics/analyzer.js,
src/codegen/javascript-generator.js), together with theorems settling the
specification's claims against the embedded code.

JavaScript mutation-in-place is translated to explicit state passing:
an analyze routine returns the annotated node (or the raised error), and
the code generator's identifier cache is threaded as an explicit state.
-/

namespace Goof3

/-- Modelled from the spec: src/semantics/builtins.js is not under src/.
Spec section 3 fixes a closed set of primitive types, Int, Float, String,
Bool and Null, that are identity-comparable singleton tags. -/
inductive BType where
  | int
  | float
  | string
  | bool
  | null
deriving DecidableEq, Repr

/-- Values that can occupy a node's `type` field, compared with JavaScript
`===` (DecidableEq). `name` is a raw type-name or literal-kind string
(strings compare by value); `recordInstance` and `arrayInstance` are
RecordType and ArrayType node objects, compared by object identity (the
`key`); `ctorArrayType` is the ArrayType class object itself, which check.js
imports and compares against with `===` (an instance never equals the
class); `jsUndefined` is JavaScript `undefined`. -/
inductive TypeVal where
  | builtin (t : BType)
  | name (s : String)
  | recordInstance (key : Nat)
  | arrayInstance (key : Nat)
  | ctorArrayType
  | jsUndefined
deriving DecidableEq, Repr

/-- Errors raised by the embedded JavaScript: `error m` is `throw new
Error(m)` (so `doCheck` failures), `typeError m` is an implicitly raised
TypeError (calling or dereferencing `undefined`), `referenceError m` is a
ReferenceError (reading an undeclared identifier). -/
inductive JsErr where
  | error (message : String)
  | typeError (message : String)
  | referenceError (message : String)
deriving DecidableEq, Repr

/-- doCheck from check.js: `if (!condition) throw new Error(message)`. -/
def doCheck (condition : Prop) [Decidable condition] (message : String) :
    Except JsErr Unit :=
  if condition then .ok () else .error (.error message)

/-- isArray from check.js takes an expression and reads only its `type`
field: `doCheck(expression.type === ArrayType)`. The source passes NO
message argument, so the raised Error carries the empty message
(`new Error(undefined)` leaves `message` as the empty string). -/
def isArray (exprType : TypeVal) : Except JsErr Unit :=
  doCheck (exprType = .ctorArrayType) ""

/-- isArrayType from check.js reads the node's `type` field:
`doCheck(type.type === ArrayType, 'Not an array type')`; the comparison is
against the imported ArrayType class object. -/
def isArrayType (tyField : TypeVal) : Except JsErr Unit :=
  doCheck (tyField = .ctorArrayType) "Not an array type"

/-- isInteger from check.js, over the expression's `type` field. -/
def isInteger (exprType : TypeVal) : Except JsErr Unit :=
  doCheck (exprType = .builtin .int) "Not an integer"

/-- isNumber from check.js, over the expression's `type` field. -/
def isNumber (exprType : TypeVal) : Except JsErr Unit :=
  doCheck (exprType = .builtin .int ∨ exprType = .builtin .float) "Not a number"

/-- isString from check.js, over the expression's `type` field. -/
def isString (exprType : TypeVal) : Except JsErr Unit :=
  doCheck (exprType = .builtin .string) "Not a string"

/-- isIntegerOrString from check.js, over the expression's `type` field. -/
def isIntegerOrString (exprType : TypeVal) : Except JsErr Unit :=
  doCheck (exprType = .builtin .int ∨ exprType = .builtin .string)
    "Not an integer or string"

/-- expressionsHaveTheSameType from check.js, over the two expressions'
`type` fields: `doCheck(e1.type === e2.type, 'Types must match exactly')`. -/
def expressionsHaveTheSameType (t1 t2 : TypeVal) : Except JsErr Unit :=
  doCheck (t1 = t2) "Types must match exactly"

/-- Test for `type.constructor === RecordType`: true exactly of RecordType
node instances (a string's constructor is String, a primitive type tag's is
PrimitiveType, an ArrayType node's is ArrayType, none of which is the
RecordType class). -/
def isRecordInstanceB : TypeVal → Bool
  | .recordInstance _ => true
  | _ => false

/-- Rendering of a type value by `util.format` inside isAssignableTo's
failure message. Display detail only; builtins.js is not under src/, so the
rendering of the primitive tags is modelled from the spec's type names. -/
def utilFormatType : TypeVal → String
  | .builtin .int => "IntType"
  | .builtin .float => "FloatType"
  | .builtin .string => "StringType"
  | .builtin .bool => "BoolType"
  | .builtin .null => "NullType"
  | .name s => s
  | .recordInstance _ => "RecordType"
  | .arrayInstance _ => "ArrayType"
  | .ctorArrayType => "class ArrayType"
  | .jsUndefined => "undefined"

/-- isAssignableTo from check.js, over the expression's `type` field and the
target type value:
`doCheck((expression.type === NullType && type.constructor === RecordType)
|| expression.type === type, ...)`. -/
def isAssignableTo (exprType ty : TypeVal) : Except JsErr Unit :=
  doCheck
    ((exprType = .builtin .null ∧ isRecordInstanceB ty = true) ∨ exprType = ty)
    ("Expression of type " ++ utilFormatType exprType
      ++ " not compatible with type " ++ utilFormatType ty)

/-- Declaration node as consulted by isNotReadOnly: only its readOnly flag
matters here. -/
structure VarDecl where
  readOnly : Bool
deriving DecidableEq, Repr

/-- Assignment targets as classified by isNotReadOnly's
`lvalue.constructor === IdExp` test: an IdExp node (carrying its resolved
declaration), a MemberExpression node, or any other node variant (tagged by
its constructor name). -/
inductive LVal where
  | idExp (reference : VarDecl)
  | memberExpression
  | otherNode (ctorName : String)
deriving DecidableEq, Repr

/-- isNotReadOnly from check.js:
`doCheck(!(lvalue.constructor === IdExp && lvalue.ref.readOnly),
'Assignment to read-only variable')`.
For a non-IdExp lvalue the conjunction short-circuits to false and the check
passes. For an IdExp lvalue JavaScript evaluates `lvalue.ref.readOnly`;
IdExp nodes store their resolved declaration in the field `reference`, not
`ref` (IdExp.prototype.analyze in analyzer.js reads and writes
`this.reference`; ast.js is not under src/, and spec section 3 gives
identifier-like nodes a `reference` to the declaring entity), so
`lvalue.ref` is `undefined` and the property read raises a TypeError before
doCheck runs, whatever the readOnly flag is. -/
def isNotReadOnly (lvalue : LVal) : Except JsErr Unit :=
  match lvalue with
  | .idExp _ =>
      .error (.typeError
        "Cannot read properties of undefined (reading \x27readOnly\x27)")
  | _ => doCheck (¬ (False ∧ True)) "Assignment to read-only variable"

/-- getType from analyzer.js: maps a literal-kind or type-name string to a
builtin type; any unrecognized string falls through the switch's default
case and is returned unchanged. -/
def getType (typeString : String) : TypeVal :=
  if typeString = "array_of_chars" then .builtin .string
  else if typeString = "whole_number" then .builtin .int
  else if typeString = "not_whole_number" then .builtin .float
  else if typeString = "true_or_false" then .builtin .bool
  else if typeString = "temp" then .builtin .null
  else .name typeString

/-- getType applied to an arbitrary `type` field value: the JavaScript
switch compares with string cases, so every non-string value falls through
the default case unchanged. -/
def getTypeVal : TypeVal → TypeVal
  | .name s => getType s
  | v => v

/-- Character-class regex test: `/[c...]/.test(op)` holds when the string
contains at least one of the listed characters. -/
def regexHasAnyChar (cs : List Char) (op : String) : Bool :=
  op.data.any (fun c => cs.contains c)

/-- Substring test over char lists, used for the `/\|\||&&/.test(op)` regex
(does the operator contain the two-character sequence). -/
def listHasSub (pat : List Char) : List Char → Bool
  | [] => pat.isEmpty
  | c :: rest => pat.isPrefixOf (c :: rest) || listHasSub pat rest

/-- Substring test on strings. -/
def strContains (s pat : String) : Bool :=
  listHasSub pat.data s.data

/-- Anchored regex test `/^[!=]/.test(op)`: the operator's first character
is an exclamation mark or an equals sign. -/
def startsWithBangOrEq (op : String) : Bool :=
  match op.data with
  | [] => false
  | c :: _ => c = '!' || c = '='

/-- Names exported by check.js's module.exports. Neither isBoolean nor
isAssignment is among them, although analyzer.js calls both. -/
def checkExports : List String :=
  ["isArray", "isArrayType", "isInteger", "isNumber", "isString",
   "isIntegerOrString", "isFunction", "expressionsHaveTheSameType",
   "isAssignableTo", "isNotReadOnly", "fieldHasNotBeenUsed",
   "legalArguments", "noRecursiveTypeCyclesWithoutRecordTypes"]

/-- Calling `check.f(...)` for a name f that check.js does not export:
the property access yields `undefined`, and calling it raises
`TypeError: check.f is not a function`. -/
def callUndefinedCheck (f : String) : Except JsErr Unit :=
  .error (.typeError ("check." ++ f ++ " is not a function"))

/-- ArrayType AST node: its `type` field holds the declared element type
(for `array of whole_number`, the name string whole_number), replaced by the
resolved type during analysis. `key` is the node's object identity. The
constructor's field layout follows ArrayType.prototype.analyze and the
commented-out getType branch in analyzer.js (ast.js itself is not under
src/). -/
structure ArrayTypeNode where
  key : Nat
  type : TypeVal
deriving DecidableEq, Repr

/-- AST node variants embedded for the analyzer and generator claims, with
the fields that analyzer.js and javascript-generator.js access. The `type`
argument of `literal` and `binaryExpression` is the node's mutable `type`
field (a kind string before analysis, a resolved type after). -/
inductive Node where
  | literal (type : TypeVal) (value : String)
  | binaryExpression (op : String) (left right : Node) (type : TypeVal)
  | whileStatement (test : Node) (body : List Node)
  | gifStatement (tests : List Node) (consequents : List (List Node))
      (alternate : Option (List Node))
  | forStatement (assignments : List Node) (test : Node) (action : Node)
      (body : List Node)
  | arrayExpression (type : ArrayTypeNode) (size : Node) (elements : List Node)
deriving Repr

/-- Reading a node's `type` field: statements never receive one (it is
`undefined`); an ArrayExpression's `type` field holds its ArrayType node
object. -/
def nodeType : Node → TypeVal
  | .literal t _ => t
  | .binaryExpression _ _ _ t => t
  | .arrayExpression ty _ _ => .arrayInstance ty.key
  | _ => .jsUndefined

/-- ArrayType.prototype.analyze from analyzer.js:
`check.isArrayType(this); this.type = getType(this.type);`. -/
def arrayTypeAnalyze (n : ArrayTypeNode) : Except JsErr ArrayTypeNode := do
  let _ ← isArrayType n.type
  .ok ⟨n.key, getTypeVal n.type⟩

mutual

/-- Per-variant analyze routines from analyzer.js, with in-place mutation
rendered as returning the annotated node. Order of effects follows the
source exactly; calls to the missing checks isBoolean and isAssignment are
embedded through callUndefinedCheck. -/
def analyzeNode : Node → Except JsErr Node
  | .literal t v =>
      -- Literal.prototype.analyze: this.type = getType(this.type)
      .ok (.literal (getTypeVal t) v)
  | .binaryExpression op l r _ => do
      -- BinaryExpression.prototype.analyze
      let l' ← analyzeNode l
      let r' ← analyzeNode r
      if regexHasAnyChar ['-', '+', '*', '/'] op then do
        let _ ← isNumber (nodeType l')
        let _ ← isNumber (nodeType r')
        if nodeType l' = .builtin .float ∨ nodeType r' = .builtin .float then
          .ok (.binaryExpression op l' r' (.builtin .float))
        else
          .ok (.binaryExpression op l' r' (.builtin .int))
      else if regexHasAnyChar ['<', '>'] op then do
        let _ ← isNumber (nodeType l')
        let _ ← isNumber (nodeType r')
        .ok (.binaryExpression op l' r' (.builtin .bool))
      else if strContains op "||" || strContains op "&&" then do
        let _ ← callUndefinedCheck "isBoolean"
        let _ ← callUndefinedCheck "isBoolean"
        .ok (.binaryExpression op l' r' (.builtin .bool))
      else if startsWithBangOrEq op then do
        let _ ← expressionsHaveTheSameType (nodeType l') (nodeType r')
        .ok (.binaryExpression op l' r' (.builtin .bool))
      else
        -- no branch matches: no check runs and this.type is never assigned
        .ok (.binaryExpression op l' r' .jsUndefined)
  | .whileStatement test body => do
      -- WhileStatement.prototype.analyze (the loop child context is created
      -- but no embedded variant consults it)
      let test' ← analyzeNode test
      let _ ← callUndefinedCheck "isBoolean"
      let body' ← analyzeList body
      .ok (.whileStatement test' body')
  | .gifStatement tests consequents alternate => do
      -- GifStatement.prototype.analyze
      let tests' ← analyzeTests tests
      let consequents' ← analyzeBranches consequents
      match alternate with
      | none => .ok (.gifStatement tests' consequents' none)
      | some [] =>
          -- this.alternate[0] is undefined, so .analyze raises
          .error (.typeError
            "Cannot read properties of undefined (reading \x27analyze\x27)")
      | some (a :: rest) => do
          let a' ← analyzeNode a
          .ok (.gifStatement tests' consequents' (some (a' :: rest)))
  | .forStatement assignments test action body => do
      -- ForStatement.prototype.analyze
      let assignments' ← analyzeList assignments
      let test' ← analyzeNode test
      let _ ← callUndefinedCheck "isBoolean"
      let action' ← analyzeNode action
      let _ ← callUndefinedCheck "isAssignment"
      let body' ← analyzeList body
      .ok (.forStatement assignments' test' action' body')
  | .arrayExpression ty size elements => do
      -- ArrayExpression.prototype.analyze: this.type.analyze() then
      -- check.isArray(this); this.type is an ArrayType node instance, never
      -- the ArrayType class, so isArray raises its empty-message Error
      let ty' ← arrayTypeAnalyze ty
      let _ ← isArray (TypeVal.arrayInstance ty'.key)
      let size' ← analyzeNode size
      let _ ← isInteger (nodeType size')
      let elements' ← analyzeElements ty'.type elements
      .ok (.arrayExpression ty' size' elements')

/-- Statement-list analysis: `list.forEach(e => e.analyze(ctx))`. -/
def analyzeList : List Node → Except JsErr (List Node)
  | [] => .ok []
  | n :: ns => do
      let n' ← analyzeNode n
      let ns' ← analyzeList ns
      .ok (n' :: ns')

/-- GifStatement's `this.tests.forEach((e) => { e.analyze(context);
check.isBoolean(e); })`. -/
def analyzeTests : List Node → Except JsErr (List Node)
  | [] => .ok []
  | t :: ts => do
      let t' ← analyzeNode t
      let _ ← callUndefinedCheck "isBoolean"
      let ts' ← analyzeTests ts
      .ok (t' :: ts')

/-- GifStatement's `this.consequents.forEach(cons => cons.forEach(...))`. -/
def analyzeBranches : List (List Node) → Except JsErr (List (List Node))
  | [] => .ok []
  | b :: bs => do
      let b' ← analyzeList b
      let bs' ← analyzeBranches bs
      .ok (b' :: bs')

/-- ArrayExpression's `this.elements.forEach((e) => { e.analyze();
check.isAssignableTo(e, this.type.type); })`. -/
def analyzeElements (elemTy : TypeVal) : List Node → Except JsErr (List Node)
  | [] => .ok []
  | e :: es => do
      let e' ← analyzeNode e
      let _ ← isAssignableTo (nodeType e') elemTy
      let es' ← analyzeElements elemTy es
      .ok (e' :: es')

end

/-- Modelled from the spec: src/semantics/context.js is not under src/.
Spec section 4.1: `add(declNode)` inserts a binding for the node's declared
name into the current scope, failing with a DuplicateDeclaration error if
the name is already bound in the same scope. The scope is rendered as the
list of names bound in it. -/
def contextAdd (ctx : List String) (id : String) : Except JsErr (List String) :=
  if id ∈ ctx then .error (.error ("Duplicate declaration of " ++ id))
  else .ok (id :: ctx)

/-- Declared-type field of a VariableDeclaration: either an ArrayType node
(the `this.type instanceof ArrayType` branch) or a plain value such as a
type-name string. -/
inductive DeclaredType where
  | arrayType (n : ArrayTypeNode)
  | plain (t : TypeVal)
deriving DecidableEq, Repr

/-- Value of a declared-type field as seen by `===` comparisons: an
ArrayType node compares by object identity. -/
def declaredTypeVal : DeclaredType → TypeVal
  | .arrayType n => .arrayInstance n.key
  | .plain t => t

/-- VariableDeclaration.prototype.analyze from analyzer.js: analyze or
resolve the declared type, then analyze the optional initializer and check
it assignable to the declared type, then register the declaration through
contextAdd. `id` is the declared name. -/
def variableDeclarationAnalyze (declType : DeclaredType)
    (initializer : Option Node) (ctx : List String) (id : String) :
    Except JsErr (DeclaredType × List String) := do
  let declType' ←
    match declType with
    | .arrayType n => do
        let n' ← arrayTypeAnalyze n
        pure (DeclaredType.arrayType n')
    | .plain t => pure (DeclaredType.plain (getTypeVal t))
  match initializer with
  | none => pure ()
  | some init => do
      let init' ← analyzeNode init
      let _ ← isAssignableTo (nodeType init') (declaredTypeVal declType')
      pure ()
  let ctx' ← contextAdd ctx id
  .ok (declType', ctx')

/-- Literal node for the boolean literal true, as parsed (kind string
true_or_false). -/
def boolLit : Node := .literal (.name "true_or_false") "true"

/-- Literal node for a string literal, as parsed (kind string
array_of_chars). -/
def strLit : Node := .literal (.name "array_of_chars") "a"

/-- makeOp from javascript-generator.js:
`{ '=': '===', '<>': '!==', '&': '&&', '|': '||' }[op] || op`. -/
def makeOp (op : String) : String :=
  if op = "=" then "==="
  else if op = "<>" then "!=="
  else if op = "&" then "&&"
  else if op = "|" then "||"
  else op

/-- Entity handed to javaScriptId: `key` is its JavaScript identity (the Map
key; distinct objects get distinct keys, a given string value one fixed
key), `id` its `.id` property, which a plain string value does not have. -/
structure JsEntity where
  key : Nat
  id : Option String
deriving DecidableEq, Repr

/-- Little-endian base-10 digits with explicit fuel (structural recursion,
so concrete values reduce by rfl); with enough fuel this agrees with
Nat.digits 10, see digitsLE_eq_digits. -/
def digitsLE : Nat → Nat → List Nat
  | 0, _ => []
  | _ + 1, 0 => []
  | fuel + 1, n + 1 => (n + 1) % 10 :: digitsLE fuel ((n + 1) / 10)

/-- Base-10 digits of n, least significant first. -/
def natDigits (n : Nat) : List Nat :=
  digitsLE n n

/-- Decimal rendering of a natural number, as JavaScript template
interpolation renders the integer suffix in javaScriptId. -/
def natToString (n : Nat) : String :=
  if n = 0 then "0" else ⟨(natDigits n).reverse.map Nat.digitChar⟩

/-- String produced by the template `${v.id}_${n}`: interpolating a missing
property renders the text undefined. -/
def renderJsId (v : JsEntity) (n : Nat) : String :=
  (match v.id with | some s => s | none => "undefined") ++ "_" ++ natToString n

/-- State of javaScriptId's closure: the counter lastId and the Map from
entity identity to its assigned number. -/
structure IdCache where
  lastId : Nat
  map : List (Nat × Nat)
deriving DecidableEq, Repr

/-- Map lookup by entity identity (the first binding wins, as in a Map whose
keys are never rebound). -/
def findNum (k : Nat) : List (Nat × Nat) → Option Nat
  | [] => none
  | p :: ps => if p.1 = k then some p.2 else findNum k ps

/-- javaScriptId from javascript-generator.js:
`if (!map.has(v)) map.set(v, ++lastId); return formatted string` — the
closure state is threaded explicitly. -/
def javaScriptId (v : JsEntity) (st : IdCache) : String × IdCache :=
  match findNum v.key st.map with
  | some n => (renderJsId v n, st)
  | none =>
      let n := st.lastId + 1
      (renderJsId v n, ⟨n, (v.key, n) :: st.map⟩)

/-- The string value print used as the stub name: a fixed Map key with no
`.id` property. -/
def printEntity : JsEntity := ⟨0, none⟩

/-- generateLibraryStub from javascript-generator.js:
`function ${javaScriptId(name)}(${params}) {${body}}`. -/
def generateLibraryStub (name : JsEntity) (params body : String)
    (st : IdCache) : String × IdCache :=
  let (n, st') := javaScriptId name st
  ("function " ++ n ++ "(" ++ params ++ ") \x7b" ++ body ++ "\x7d", st')

/-- generateLibraryFunctions from javascript-generator.js:
`[generateLibraryStub('print', 's', 'console.log(s);')].join('')`. Note the
argument is the string print itself, whose `.id` property is undefined. -/
def generateLibraryFunctions (st : IdCache) : String × IdCache :=
  let (s, st') := generateLibraryStub printEntity "s" "console.log(s);" st
  (String.intercalate "" [s], st')

mutual

/-- Per-variant gen routines from javascript-generator.js. None of the
embedded variants reaches a javaScriptId call, so no cache state is
threaded here. The For and Gif templates reproduce the source's faults:
ForStatement.gen interpolates `this.assignments.gen()` although assignments
is an array (TypeError), and GifStatement.gen interpolates `test.gen()`
where no variable test is in scope (ReferenceError) — with an alternate
present, `this.alternate.gen()` raises first, since alternate is an
array. -/
def gen : Node → Except JsErr String
  | .literal t v =>
      -- Literal.prototype.gen
      if t = .builtin .string then .ok ("\"" ++ v ++ "\"") else .ok v
  | .binaryExpression op l r _ => do
      -- BinaryExpression.prototype.gen
      let ls ← gen l
      let rs ← gen r
      .ok ("(" ++ ls ++ " " ++ makeOp op ++ " " ++ rs ++ ")")
  | .whileStatement test body => do
      -- WhileStatement.prototype.gen: body fragments first, then the
      -- (garbled) template, which does not raise
      let bodyStrs ← genList body
      let testStr ← gen test
      .ok ("while (" ++ testStr ++ ") \x7b " ++ String.intercalate ";" bodyStrs
        ++ "))\n        .join(\x27;\x27)\x7d \x7d")
  | .gifStatement _ _ alternate =>
      -- GifStatement.prototype.gen
      match alternate with
      | some _ => .error (.typeError "this.alternate.gen is not a function")
      | none => .error (.referenceError "test is not defined")
  | .forStatement _ _ _ body => do
      -- ForStatement.prototype.gen: body fragments first, then the template
      let _ ← genList body
      .error (.typeError "this.assignments.gen is not a function")
  | .arrayExpression _ size _ => do
      -- ArrayExpression.prototype.gen: Array(size).fill(this.elements.gen())
      let _ ← gen size
      .error (.typeError "this.elements.gen is not a function")

/-- Fragment list for `body.map(statement => statement.gen())`. -/
def genList : List Node → Except JsErr (List String)
  | [] => .ok []
  | n :: ns => do
      let s ← gen n
      let ss ← genList ns
      .ok (s :: ss)

end

/-- module.exports of javascript-generator.js: the generateLibraryFunctions
call is commented out, so the produced source text is exactly the root
expression's own fragment. The subsequent prettier-eslint formatting of that
text is an external collaborator (spec section 1) and is not modelled. -/
def generate (exp : Node) : Except JsErr String :=
  gen exp

/-- Analyzed literal for the boolean true (type already resolved to Bool),
as handed to the generator. -/
def boolLitAnalyzed : Node := .literal (.builtin .bool) "true"

/-- Number assigned to an entity by one javaScriptId call: its cached
number if present, else the incremented counter. -/
def assignedNum (v : JsEntity) (st : IdCache) : Nat :=
  match findNum v.key st.map with
  | some n => n
  | none => st.lastId + 1

/-- Running a sequence of further javaScriptId calls (any renderings done
elsewhere in the same compilation), keeping only the cache state. -/
def runCalls : List JsEntity → IdCache → IdCache
  | [], st => st
  | w :: ws, st => runCalls ws ((javaScriptId w st).2)

/-- Invariant of the identifier cache: every cached number is positive and
at most lastId, and distinct entries have distinct keys and distinct
numbers. The empty cache the closure starts from satisfies it, and every
javaScriptId call preserves it. -/
def GoodCache (st : IdCache) : Prop :=
  (∀ p ∈ st.map, 0 < p.2 ∧ p.2 ≤ st.lastId) ∧
  st.map.Pairwise (fun a b => a.1 ≠ b.1 ∧ a.2 ≠ b.2)

theorem digitsLE_eq_digits :
    ∀ (fuel n : Nat), n ≤ fuel → digitsLE fuel n = Nat.digits 10 n := by
  intro fuel
  induction fuel with
  | zero =>
    intro n hn
    have h0 : n = 0 := Nat.le_zero.mp hn
    subst h0
    simp [digitsLE]
  | succ fuel ih =>
    intro n hn
    cases n with
    | zero => simp [digitsLE]
    | succ m =>
      have hdiv : (m + 1) / 10 ≤ fuel := by
        have h1 : (m + 1) / 10 < m + 1 :=
          Nat.div_lt_self (Nat.succ_pos m) (by norm_num)
        omega
      rw [show digitsLE (fuel + 1) (m + 1) =
          (m + 1) % 10 :: digitsLE fuel ((m + 1) / 10) from rfl,
        ih _ hdiv, ← Nat.digits_def' (by norm_num : 1 < 10) (Nat.succ_pos m)]

theorem natDigits_eq_digits (n : Nat) : natDigits n = Nat.digits 10 n :=
  digitsLE_eq_digits n n le_rfl

theorem digitChar_inj_lt :
    ∀ a, a < 10 → ∀ b, b < 10 → Nat.digitChar a = Nat.digitChar b → a = b := by
  decide

theorem map_digitChar_inj :
    ∀ (l1 l2 : List Nat), (∀ d ∈ l1, d < 10) → (∀ d ∈ l2, d < 10) →
      l1.map Nat.digitChar = l2.map Nat.digitChar → l1 = l2 := by
  intro l1
  induction l1 with
  | nil =>
    intro l2 _ _ h
    cases l2 with
    | nil => rfl
    | cons b bs => simp at h
  | cons a as ih =>
    intro l2 h1 h2 h
    cases l2 with
    | nil => simp at h
    | cons b bs =>
      simp only [List.map_cons, List.cons.injEq] at h
      have ha : a = b :=
        digitChar_inj_lt a (h1 a (by simp)) b (h2 b (by simp)) h.1
      have hrest := ih bs (fun d hd => h1 d (by simp [hd]))
        (fun d hd => h2 d (by simp [hd])) h.2
      rw [ha, hrest]

theorem natDigits_members_lt (n : Nat) :
    ∀ d ∈ (natDigits n).reverse, d < 10 := by
  intro d hd
  rw [List.mem_reverse, natDigits_eq_digits] at hd
  exact Nat.digits_lt_base (by norm_num) hd

theorem natToString_inj : ∀ (a b : Nat), natToString a = natToString b → a = b := by
  intro a b h
  unfold natToString at h
  by_cases ha : a = 0 <;> by_cases hb : b = 0
  · omega
  · exfalso
    rw [if_pos ha, if_neg hb] at h
    have hdata := congrArg String.data h
    have h0 : ([0] : List Nat).map Nat.digitChar =
        (natDigits b).reverse.map Nat.digitChar := hdata
    have hlist : ([0] : List Nat) = (natDigits b).reverse :=
      map_digitChar_inj _ _ (by simp) (natDigits_members_lt b) h0
    have hrev : natDigits b = [0] := by
      have := congrArg List.reverse hlist
      simpa using this.symm
    rw [natDigits_eq_digits] at hrev
    have := Nat.ofDigits_digits 10 b
    rw [hrev] at this
    simp [Nat.ofDigits] at this
    exact hb this.symm
  · exfalso
    rw [if_neg ha, if_pos hb] at h
    have hdata := congrArg String.data h.symm
    have h0 : ([0] : List Nat).map Nat.digitChar =
        (natDigits a).reverse.map Nat.digitChar := hdata
    have hlist : ([0] : List Nat) = (natDigits a).reverse :=
      map_digitChar_inj _ _ (by simp) (natDigits_members_lt a) h0
    have hrev : natDigits a = [0] := by
      have := congrArg List.reverse hlist
      simpa using this.symm
    rw [natDigits_eq_digits] at hrev
    have := Nat.ofDigits_digits 10 a
    rw [hrev] at this
    simp [Nat.ofDigits] at this
    exact ha this.symm
  · rw [if_neg ha, if_neg hb] at h
    have hdata := congrArg String.data h
    have hlist : (natDigits a).reverse = (natDigits b).reverse :=
      map_digitChar_inj _ _ (natDigits_members_lt a) (natDigits_members_lt b)
        hdata
    have hdig : natDigits a = natDigits b := List.reverse_inj.mp hlist
    rw [natDigits_eq_digits, natDigits_eq_digits] at hdig
    exact Nat.digits.injective 10 hdig

theorem renderJsId_inj_num (v1 v2 : JsEntity) (n1 n2 : Nat)
    (hid : v1.id = v2.id) (h : renderJsId v1 n1 = renderJsId v2 n2) :
    n1 = n2 := by
  unfold renderJsId at h
  rw [hid] at h
  have hd := congrArg String.data h
  simp only [String.data_append] at hd
  have hx := List.append_cancel_left hd
  exact natToString_inj n1 n2 (String.ext hx)

theorem findNum_some_mem :
    ∀ (m : List (Nat × Nat)) (k n : Nat), findNum k m = some n → (k, n) ∈ m := by
  intro m
  induction m with
  | nil => intro k n h; simp [findNum] at h
  | cons p ps ih =>
    intro k n h
    by_cases hk : p.1 = k
    · rw [findNum, if_pos hk] at h
      have hp : p = (k, n) := by
        cases p
        simp only [Option.some.injEq] at h
        simp_all
      rw [hp]
      exact List.mem_cons_self _ _
    · rw [findNum, if_neg hk] at h
      exact List.mem_cons_of_mem _ (ih k n h)

theorem findNum_none_keys :
    ∀ (m : List (Nat × Nat)) (k : Nat), findNum k m = none →
      ∀ p ∈ m, p.1 ≠ k := by
  intro m
  induction m with
  | nil => intro k _ p hp; simp at hp
  | cons q qs ih =>
    intro k h p hp
    by_cases hq : q.1 = k
    · rw [findNum, if_pos hq] at h
      cases h
    · rw [findNum, if_neg hq] at h
      rcases List.mem_cons.mp hp with rfl | hmem
      · exact hq
      · exact ih k h p hmem

theorem assignedNum_of_some (v : JsEntity) (st : IdCache) (n : Nat)
    (h : findNum v.key st.map = some n) : assignedNum v st = n := by
  simp [assignedNum, h]

theorem assignedNum_of_none (v : JsEntity) (st : IdCache)
    (h : findNum v.key st.map = none) : assignedNum v st = st.lastId + 1 := by
  simp [assignedNum, h]

theorem javaScriptId_fst (v : JsEntity) (st : IdCache) :
    (javaScriptId v st).1 = renderJsId v (assignedNum v st) := by
  rcases h : findNum v.key st.map with _ | n <;>
    simp [javaScriptId, assignedNum, h]

theorem mem_map_javaScriptId (v : JsEntity) (st : IdCache) (p : Nat × Nat)
    (hp : p ∈ st.map) : p ∈ ((javaScriptId v st).2).map := by
  rcases h : findNum v.key st.map with _ | n <;>
    simp [javaScriptId, h]
  · exact Or.inr hp
  · exact hp

theorem findNum_stable (v : JsEntity) (st : IdCache) (k n : Nat)
    (h : findNum k st.map = some n) :
    findNum k ((javaScriptId v st).2).map = some n := by
  rcases hv : findNum v.key st.map with _ | m
  · have hne : v.key ≠ k := by
      intro he
      rw [he, h] at hv
      cases hv
    simp only [javaScriptId, hv]
    rw [findNum, if_neg hne]
    exact h
  · simp only [javaScriptId, hv]
    exact h

theorem findNum_after_call (v : JsEntity) (st : IdCache) :
    findNum v.key ((javaScriptId v st).2).map = some (assignedNum v st) := by
  rcases h : findNum v.key st.map with _ | n <;>
    simp [javaScriptId, assignedNum, h, findNum]

theorem goodCache_javaScriptId (v : JsEntity) (st : IdCache)
    (h : GoodCache st) : GoodCache ((javaScriptId v st).2) := by
  rcases hv : findNum v.key st.map with _ | n
  · simp only [javaScriptId, hv]
    refine ⟨?_, ?_⟩
    · intro p hp
      rcases List.mem_cons.mp hp with rfl | hmem
      · simp
      · have := h.1 p hmem
        exact ⟨this.1, Nat.le_trans this.2 (Nat.le_succ _)⟩
    · refine List.pairwise_cons.mpr ⟨?_, h.2⟩
      intro p hpmem
      refine ⟨(findNum_none_keys _ _ hv p hpmem).symm, ?_⟩
      have := (h.1 p hpmem).2
      omega
  · simp only [javaScriptId, hv]
    exact h

theorem findNum_runCalls (ws : List JsEntity) (st : IdCache) (k n : Nat)
    (h : findNum k st.map = some n) :
    findNum k ((runCalls ws st).map) = some n := by
  induction ws generalizing st with
  | nil => exact h
  | cons w ws ih => exact ih _ (findNum_stable w st k n h)

theorem mem_runCalls (ws : List JsEntity) (st : IdCache) (p : Nat × Nat)
    (hp : p ∈ st.map) : p ∈ ((runCalls ws st).map) := by
  induction ws generalizing st with
  | nil => exact hp
  | cons w ws ih => exact ih _ (mem_map_javaScriptId w st p hp)

theorem goodCache_runCalls (ws : List JsEntity) (st : IdCache)
    (h : GoodCache st) : GoodCache (runCalls ws st) := by
  induction ws generalizing st with
  | nil => exact h
  | cons w ws ih => exact ih _ (goodCache_javaScriptId w st h)

/-- CLAIM C1: analysis of a well-typed WhileStatement, GifStatement or
ForStatement does NOT complete: each calls check.isBoolean, which check.js
does not export, so even with a boolean literal test and empty body the
analyzer raises a TypeError. -/
theorem analyze_wellTyped_loops_raise :
    analyzeNode (.whileStatement boolLit []) =
      .error (.typeError "check.isBoolean is not a function") ∧
    analyzeNode (.gifStatement [boolLit] [[]] none) =
      .error (.typeError "check.isBoolean is not a function") ∧
    analyzeNode (.forStatement [] boolLit boolLit []) =
      .error (.typeError "check.isBoolean is not a function") := by
  refine ⟨rfl, rfl, rfl⟩

/-- CLAIM C2: the operator-class table is not enforced as specified: a
logical expression with two well-typed boolean operands raises a TypeError
(check.isBoolean is not exported), and the inequality operator with two
operands of exactly the same type String is dispatched to the numeric
relational branch by the regex test `/[<>]/` and raises Not a number. -/
theorem binaryExpression_logical_and_inequality_diverge :
    analyzeNode (.binaryExpression "&&" boolLit boolLit .jsUndefined) =
      .error (.typeError "check.isBoolean is not a function") ∧
    analyzeNode (.binaryExpression "<>" strLit strLit .jsUndefined) =
      .error (.error "Not a number") := by
  refine ⟨rfl, rfl⟩

/-- CLAIM C3: code generation does fail on well-typed trees: a ForStatement
raises a TypeError (its assignments array has no gen method) and a
GifStatement raises a ReferenceError (the template reads the undeclared
variable test), while a WhileStatement does produce a string. -/
theorem gen_for_gif_raise :
    gen (.forStatement [] boolLitAnalyzed boolLitAnalyzed []) =
      .error (.typeError "this.assignments.gen is not a function") ∧
    gen (.gifStatement [boolLitAnalyzed] [[]] none) =
      .error (.referenceError "test is not defined") ∧
    gen (.whileStatement boolLitAnalyzed []) =
      .ok "while (true) \x7b ))\n        .join(\x27;\x27)\x7d \x7d" := by
  refine ⟨rfl, rfl, rfl⟩

/-- CLAIM C4: the generated program does not include the print library stub:
for the analyzed literal 3 the whole generated source text is the string 3,
which does not contain the console-output call; moreover
generateLibraryFunctions itself (never called by module.exports) would name
the stub undefined_1 rather than print, because javaScriptId reads the `.id`
property of the string print. -/
theorem generate_omits_library_stub :
    generate (.literal (.builtin .int) "3") = .ok "3" ∧
    strContains "3" "console.log" = false ∧
    (generateLibraryFunctions ⟨0, []⟩).1 =
      "function undefined_1(s) \x7bconsole.log(s);\x7d" := by
  refine ⟨rfl, by decide, rfl⟩

/-- CLAIM C5: over any cache state satisfying the invariant (in particular
the empty state the closure starts from), two distinct declaration entities
sharing the same source name receive different generated identifiers, no
matter what other renderings happen in between; and one entity rendered
again after any sequence of other calls always receives the identical
string. -/
theorem javaScriptId_unique_and_stable :
    (∀ (st : IdCache) (v1 v2 : JsEntity) (ws : List JsEntity),
        GoodCache st → v1.key ≠ v2.key → v1.id = v2.id →
        (javaScriptId v2 (runCalls ws (javaScriptId v1 st).2)).1 ≠
          (javaScriptId v1 st).1) ∧
    (∀ (st : IdCache) (v : JsEntity) (ws : List JsEntity),
        (javaScriptId v (runCalls ws (javaScriptId v st).2)).1 =
          (javaScriptId v st).1) := by
  constructor
  · intro st v1 v2 ws hg hkey hid
    have hmem1 : (v1.key, assignedNum v1 st) ∈
        (runCalls ws (javaScriptId v1 st).2).map :=
      mem_runCalls _ _ _
        (findNum_some_mem _ _ _ (findNum_after_call v1 st))
    have hg2 : GoodCache (runCalls ws (javaScriptId v1 st).2) :=
      goodCache_runCalls _ _ (goodCache_javaScriptId _ _ hg)
    rw [javaScriptId_fst, javaScriptId_fst]
    intro heq
    have hnum := renderJsId_inj_num v2 v1 _ _ hid.symm heq
    rcases hv2 : findNum v2.key (runCalls ws (javaScriptId v1 st).2).map
        with _ | n2
    · have hb := (hg2.1 _ hmem1).2
      rw [assignedNum_of_none _ _ hv2] at hnum
      omega
    · have hmem2 : (v2.key, n2) ∈ (runCalls ws (javaScriptId v1 st).2).map :=
        findNum_some_mem _ _ _ hv2
      have hner : assignedNum v2 (runCalls ws (javaScriptId v1 st).2) = n2 :=
        assignedNum_of_some _ _ _ hv2
      have hsym : Symmetric (fun a b : Nat × Nat => a.1 ≠ b.1 ∧ a.2 ≠ b.2) :=
        fun a b hab => ⟨Ne.symm hab.1, Ne.symm hab.2⟩
      have hpair := List.Pairwise.forall hsym hg2.2 hmem2 hmem1
        (fun hcon => hkey (congrArg Prod.fst hcon).symm)
      exact hpair.2 (hner ▸ hnum)
  · intro st v ws
    rw [javaScriptId_fst, javaScriptId_fst]
    have h2 := findNum_runCalls ws _ _ _ (findNum_after_call v st)
    rw [assignedNum_of_some _ _ _ h2]

/-- Witness for CLAIM C5's theorem: starting from the empty cache, the two
distinct entities named f render as different strings, and an entity
rendered again after an unrelated call renders identically. -/
theorem javaScriptId_unique_and_stable_witness :
    GoodCache ⟨0, []⟩ ∧
    (javaScriptId ⟨2, some "f"⟩
        (runCalls [] (javaScriptId ⟨1, some "f"⟩ ⟨0, []⟩).2)).1 ≠
      (javaScriptId ⟨1, some "f"⟩ ⟨0, []⟩).1 ∧
    (javaScriptId ⟨3, some "x"⟩
        (runCalls [⟨4, some "y"⟩] (javaScriptId ⟨3, some "x"⟩ ⟨0, []⟩).2)).1 =
      (javaScriptId ⟨3, some "x"⟩ ⟨0, []⟩).1 :=
  ⟨⟨by simp, List.Pairwise.nil⟩,
    javaScriptId_unique_and_stable.1 ⟨0, []⟩ ⟨1, some "f"⟩ ⟨2, some "f"⟩ []
      ⟨by simp, List.Pairwise.nil⟩ (by decide) rfl,
    javaScriptId_unique_and_stable.2 ⟨0, []⟩ ⟨3, some "x"⟩ [⟨4, some "y"⟩]⟩

/-- CLAIM C7: analysis of the declaration
`var a : array of whole_number[3] := 0;` raises: the declared type is an
ArrayType node whose element-type field is the name string whole_number, so
check.isArrayType's comparison `this.type === ArrayType` (against the
ArrayType class) fails and analysis aborts with Not an array type, for
every initializer and every context; target code is never generated. -/
theorem variableDeclaration_arrayType_example_raises :
    ∀ (initializer : Option Node) (ctx : List String),
      variableDeclarationAnalyze
        (.arrayType ⟨0, .name "whole_number"⟩) initializer ctx "a" =
        .error (.error "Not an array type") := by
  intro initializer ctx
  rfl

/-- CLAIM C6 (counterexample): the claim says an expression of Null type is
rejected by isAssignableTo against every primitive type target including
Null itself; in fact a Null-typed expression checked against the NullType
target passes, by the `expression.type === type` disjunct. -/
theorem isAssignableTo_null_accepted_at_nullType :
    isAssignableTo (.builtin .null) (.builtin .null) = .ok () := by
  rfl

/-- CLAIM C6 (amended): isAssignableTo is reflexive (every expression passes
against its own type), accepts a Null-typed expression against every
RecordType target, and rejects a Null-typed expression against the
primitive targets Int, Float, String and Bool; against the primitive Null
target the Null-typed expression is accepted by reflexivity. -/
theorem isAssignableTo_reflexive_null_record_rules :
    (∀ t : TypeVal, isAssignableTo t t = .ok ()) ∧
    (∀ k : Nat, isAssignableTo (.builtin .null) (.recordInstance k) = .ok ()) ∧
    isAssignableTo (.builtin .null) (.builtin .int) ≠ .ok () ∧
    isAssignableTo (.builtin .null) (.builtin .float) ≠ .ok () ∧
    isAssignableTo (.builtin .null) (.builtin .string) ≠ .ok () ∧
    isAssignableTo (.builtin .null) (.builtin .bool) ≠ .ok () ∧
    isAssignableTo (.builtin .null) (.builtin .null) = .ok () := by
  refine ⟨?_, ?_, fun h => Except.noConfusion h, fun h => Except.noConfusion h,
    fun h => Except.noConfusion h, fun h => Except.noConfusion h, by rfl⟩
  · intro t
    unfold isAssignableTo doCheck
    rw [if_pos (Or.inr rfl)]
  · intro k
    unfold isAssignableTo doCheck
    rw [if_pos (Or.inl ⟨rfl, rfl⟩)]

/-- CLAIM C8: the claim says every exported check raises with a non-empty,
rule-identifying message; isArray calls doCheck with no message argument, so
on a violating input (here an Int-typed expression) it raises an Error whose
message is the empty string. -/
theorem isArray_raises_empty_message :
    isArray (.builtin .int) = .error (.error "") := by
  rfl

/-- CLAIM C9: getType maps the kind string temp to the Null type, and every
kind string other than the four spec-listed ones and temp passes through
unchanged. -/
theorem getType_temp_maps_to_null_only :
    getType "temp" = .builtin .null ∧
    ∀ s : String,
      s ∉ (["array_of_chars", "whole_number", "not_whole_number",
        "true_or_false", "temp"] : List String) →
      getType s = .name s := by
  refine ⟨rfl, ?_⟩
  intro s hs
  unfold getType
  rw [if_neg (fun h => hs (by simp [h])), if_neg (fun h => hs (by simp [h])),
    if_neg (fun h => hs (by simp [h])), if_neg (fun h => hs (by simp [h])),
    if_neg (fun h => hs (by simp [h]))]

/-- Witness for CLAIM C9's theorem at the kind string object. -/
theorem getType_temp_maps_to_null_only_witness :
    ("object" ∉ (["array_of_chars", "whole_number", "not_whole_number",
      "true_or_false", "temp"] : List String)) ∧
    getType "object" = .name "object" :=
  ⟨by decide, getType_temp_maps_to_null_only.2 "object" (by decide)⟩

/-- CLAIM C10: a non-IdExp assignment target always passes isNotReadOnly
(shown for a MemberExpression and for an arbitrary other node variant), but
an IdExp target raises a TypeError even when its resolved declaration is NOT
read-only, because the check reads `lvalue.ref` while the declaration is
stored in `lvalue.reference`. -/
theorem isNotReadOnly_nonIdExp_passes_idExp_raises :
    isNotReadOnly .memberExpression = .ok () ∧
    isNotReadOnly (.otherNode "CallExpression") = .ok () ∧
    isNotReadOnly (.idExp ⟨false⟩) =
      .error (.typeError
        "Cannot read properties of undefined (reading \x27readOnly\x27)") := by
  refine ⟨rfl, rfl, rfl⟩

end Goof3
